import Mathlib

/-!
Verification of `serve.py` (BrentLab/cryptococcus_net): a static file server
on port 8000 that injects a CORS header into every response, opens a browser
at startup, and shuts down on Ctrl+C.

The development is in two parts:
* an HTTP request/response model of the `Handler` class (a
  `SimpleHTTPRequestHandler` subclass overriding only `end_headers`);
* a trace semantics for `main()`, recording the externally visible side
  effects (bind, prints, browser open, serve loop, server close) and the
  process exit status for each environment-determined outcome (bind result,
  browser-open result, where an interrupt or exception arrives, if at all).
-/

namespace Serve

/-! ## HTTP response model -/

/-- One HTTP response header: a name/value pair. -/
structure Header where
  name : String
  value : String
deriving DecidableEq

/-- A node of the served filesystem: a regular file with its byte contents
(bytes as `Nat`), or a directory. -/
inductive FsNode where
  | file (content : List Nat) : FsNode
  | dir : FsNode
deriving DecidableEq

/-- The filesystem under the current working directory, as a finite
association from request paths to nodes. -/
abbrev Fs := List (String × FsNode)

/-- Look a path up in the filesystem. -/
def lookupFs : Fs → String → Option FsNode
  | [], _ => none
  | (p, n) :: rest, q => if p = q then some n else lookupFs rest q

/-- HTTP request method, as the base handler distinguishes them: `GET`,
`HEAD`, or any other method (for which no `do_*` handler exists). -/
inductive Method where
  | get : Method
  | head : Method
  | other : Method
deriving DecidableEq

/-- A complete HTTP response: status code, finalized header list, body. -/
structure Response where
  status : Nat
  headers : List Header
  body : List Nat
deriving DecidableEq

/-- The name of the header `Handler.end_headers` injects
(src/serve.py line 16). -/
def corsName : String := "Access-Control-Allow-Origin"

/-- Modelled from the spec: content-type inference by extension, as performed
by the underlying static-file-serving primitive (`SimpleHTTPRequestHandler`,
not part of this repository). Only the `.html` case matters to any claim;
the inference table is otherwise abstracted to a default. -/
def contentType (path : String) : String :=
  if path.endsWith ".html" then "text/html" else "application/octet-stream"

/-- Modelled from the spec: a successful file response of the underlying
static-file-serving primitive: status 200, content headers, and the file
bytes as body (empty for `HEAD`). The base handler never emits the
`Access-Control-Allow-Origin` header itself. -/
def baseServeFile (isHead : Bool) (path : String) (bytes : List Nat) :
    Nat × List Header × List Nat :=
  (200,
   [⟨"Content-type", contentType path⟩,
    ⟨"Content-Length", toString bytes.length⟩],
   if isHead then [] else bytes)

/-- Modelled from the spec: `GET`/`HEAD` handling of the underlying
static-file-serving primitive (`SimpleHTTPRequestHandler`, not part of this
repository): an existing file is served with status 200 and its bytes; a
directory is redirected (301) when the path lacks a trailing slash, and
otherwise serves its index file when present or a generated listing
(status 200, listing body abstracted — no claim depends on it); a missing
path yields status 404 with an error page body (abstracted likewise). -/
def baseGetHead (fs : Fs) (isHead : Bool) (path : String) :
    Nat × List Header × List Nat :=
  match lookupFs fs path with
  | some (FsNode.file bytes) => baseServeFile isHead path bytes
  | some FsNode.dir =>
      if path.endsWith "/" then
        match lookupFs fs (path ++ "index.html") with
        | some (FsNode.file bytes) =>
            baseServeFile isHead (path ++ "index.html") bytes
        | _ => (200, [⟨"Content-type", "text/html; charset=utf-8"⟩], [])
      else
        (301,
         [⟨"Location", path ++ "/"⟩,
          ⟨"Content-Length", "0"⟩],
         [])
  | none => (404, [⟨"Content-type", "text/html;charset=utf-8"⟩], [])

/-- Modelled from the spec: the base handler dispatch — `GET` and `HEAD` go
to static-file serving, any other method receives the primitive's default
501 "Unsupported method" error response. -/
def baseRespond (fs : Fs) (m : Method) (path : String) :
    Nat × List Header × List Nat :=
  match m with
  | Method.get => baseGetHead fs false path
  | Method.head => baseGetHead fs true path
  | Method.other => (501, [⟨"Content-type", "text/html;charset=utf-8"⟩], [])

/-- Embeds `SimpleHTTPRequestHandler.end_headers` as called on
src/serve.py line 17: flushes the buffered headers, finalizing them. -/
def SimpleHTTPRequestHandler.end_headers (buffer : List Header) :
    List Header := buffer

/-- Embeds `Handler.end_headers` (src/serve.py lines 14-17): sends the
header `Access-Control-Allow-Origin: *` — appending it to the buffer of
headers accumulated so far — and then delegates to the base class to flush.
It runs once per response, whatever the status or path. -/
def Handler.end_headers (buffer : List Header) : List Header :=
  SimpleHTTPRequestHandler.end_headers (buffer ++ [⟨corsName, "*"⟩])

/-- The full response `Handler` produces for a request: the base handler
builds the status, buffered headers and body, and header finalization goes
through the overridden `Handler.end_headers`. -/
def Handler.handleRequest (fs : Fs) (m : Method) (path : String) : Response :=
  match baseRespond fs m path with
  | (s, hs, b) => ⟨s, Handler.end_headers hs, b⟩

/-- How many times the `Access-Control-Allow-Origin` header occurs in a
header list. -/
def corsCount (hs : List Header) : Nat :=
  (hs.filter (fun h => h.name == corsName)).length

theorem corsCount_append_cors (hs : List Header) :
    corsCount (hs ++ [⟨corsName, "*"⟩]) = corsCount hs + 1 := by
  simp [corsCount, List.filter_append]

theorem corsCount_base (fs : Fs) (m : Method) (path : String) :
    corsCount (baseRespond fs m path).2.1 = 0 := by
  cases m <;> simp only [baseRespond] <;>
    first
      | rfl
      | (unfold baseGetHead
         split
         · simp [baseServeFile, corsCount, corsName]
         · split
           · split
             · simp [baseServeFile, corsCount, corsName]
             · simp [corsCount, corsName]
           · simp [corsCount, corsName]
         · simp [corsCount, corsName])

/-! ## Process trace model of `main()` -/

/-- An externally visible side effect of `main()` (src/serve.py lines 19-33):
attempting to bind the listener, printing a line, attempting to open the
browser (carrying whether the attempt succeeded), entering the serving loop,
and closing the server socket. -/
inductive Event where
  | bind (host : String) (port : Nat) : Event
  | println (s : String) : Event
  | browserOpen (u : String) (ok : Bool) : Event
  | serveLoop : Event
  | serverClose : Event
deriving DecidableEq

/-- The exceptions relevant to `main()`: `KeyboardInterrupt` (SIGINT),
the `OSError` with `EADDRINUSE` that `HTTPServer(...)` raises when the port
is taken, and any other exception. -/
inductive Exc where
  | keyboardInterrupt : Exc
  | addrInUse : Exc
  | otherExc : Exc
deriving DecidableEq

/-- How the process exits: `success` is a normal return from `main()`
(the interpreter exits with status code 0); `uncaught e` is termination by
an unhandled exception `e` (the interpreter reports the traceback to the
user and the process exits with a non-zero status). -/
inductive ExitStatus where
  | success : ExitStatus
  | uncaught (e : Exc) : ExitStatus
deriving DecidableEq

/-- Whether the process exit code is zero. -/
def ExitStatus.exitsZero : ExitStatus → Bool
  | ExitStatus.success => true
  | ExitStatus.uncaught _ => false

/-- A terminating run (events performed, then exit), or a run blocked
forever in the serving loop. -/
inductive Execution where
  | terminated (events : List Event) (status : ExitStatus) : Execution
  | serving (events : List Event) : Execution
deriving DecidableEq

/-- The events a run performed. -/
def Execution.events : Execution → List Event
  | Execution.terminated es _ => es
  | Execution.serving es => es

/-- The exit status of a run: `none` while it is still blocked serving. -/
def Execution.exitStatus : Execution → Option ExitStatus
  | Execution.terminated _ st => some st
  | Execution.serving _ => none

/-- Whether binding the listener succeeds, or fails because the port is
already in use (in which case the `HTTPServer` constructor raises). -/
inductive BindResult where
  | ok : BindResult
  | portInUse : BindResult
deriving DecidableEq

/-- Where, if anywhere, an asynchronous interrupt or a serve-loop exception
arrives during the run of `main()`:
at the first print, at the second print, during the `webbrowser.open` call
(all three are before the `try` block), as a `KeyboardInterrupt` inside
`serve_forever`, as any other exception inside `serve_forever`, or never
(the loop blocks forever). -/
inductive Interruption where
  | atPrint1 : Interruption
  | atPrint2 : Interruption
  | atBrowser : Interruption
  | atServeKI : Interruption
  | atServeOther : Interruption
  | never : Interruption
deriving DecidableEq

/-- Embeds `PORT` (src/serve.py line 11). -/
def PORT : Nat := 8000

/-- Embeds `server_address = ('', PORT)` (src/serve.py line 20): empty host
string, meaning all interfaces. -/
def server_address : String × Nat := ("", PORT)

/-- The bind address as a function of the command line and the environment:
`main()` reads neither (`sys.argv` and `os.environ` are never consulted), so
the result is the fixed `server_address`. -/
def bindAddress (_argv : List String) (_env : List (String × String)) :
    String × Nat :=
  server_address

/-- The listening URL used in the startup message and the browser call. -/
def url : String := "http://localhost:" ++ toString PORT

/-- First startup print (src/serve.py line 23). -/
def startMsg : String := "Starting server at http://localhost:" ++ toString PORT

/-- Second startup print (src/serve.py line 24). -/
def stopHint : String := "Press Ctrl+C to stop the server"

/-- Shutdown notice printed in the `except KeyboardInterrupt` arm
(src/serve.py line 31). -/
def shutdownMsg : String := "\nServer stopped"

/-- Embeds `main()` (src/serve.py lines 19-33) as a trace semantics. The
statements run in source order: construct `HTTPServer` (bind), two prints,
`webbrowser.open` (which reports failure by returning `False`, not by
raising), then `serve_forever` inside a `try` whose only handler is
`except KeyboardInterrupt`, which prints the shutdown notice and calls
`server_close`. A `KeyboardInterrupt` arriving before the `try` block, an
exception other than `KeyboardInterrupt` escaping `serve_forever`, and the
bind-time `OSError` are all uncaught and abort the run at that point. -/
def mainRun (bind : BindResult) (browser : Bool) (intr : Interruption) :
    Execution :=
  match bind with
  | BindResult.portInUse =>
      Execution.terminated [Event.bind server_address.1 server_address.2]
        (ExitStatus.uncaught Exc.addrInUse)
  | BindResult.ok =>
      match intr with
      | Interruption.atPrint1 =>
          Execution.terminated [Event.bind server_address.1 server_address.2]
            (ExitStatus.uncaught Exc.keyboardInterrupt)
      | Interruption.atPrint2 =>
          Execution.terminated
            [Event.bind server_address.1 server_address.2,
             Event.println startMsg]
            (ExitStatus.uncaught Exc.keyboardInterrupt)
      | Interruption.atBrowser =>
          Execution.terminated
            [Event.bind server_address.1 server_address.2,
             Event.println startMsg, Event.println stopHint]
            (ExitStatus.uncaught Exc.keyboardInterrupt)
      | Interruption.atServeKI =>
          Execution.terminated
            [Event.bind server_address.1 server_address.2,
             Event.println startMsg, Event.println stopHint,
             Event.browserOpen url browser, Event.serveLoop,
             Event.println shutdownMsg, Event.serverClose]
            ExitStatus.success
      | Interruption.atServeOther =>
          Execution.terminated
            [Event.bind server_address.1 server_address.2,
             Event.println startMsg, Event.println stopHint,
             Event.browserOpen url browser, Event.serveLoop]
            (ExitStatus.uncaught Exc.otherExc)
      | Interruption.never =>
          Execution.serving
            [Event.bind server_address.1 server_address.2,
             Event.println startMsg, Event.println stopHint,
             Event.browserOpen url browser, Event.serveLoop]

/-- Whether an event is a bind attempt. -/
def Event.isBind : Event → Bool
  | Event.bind _ _ => true
  | _ => false

/-- A concrete one-file filesystem used by witnesses. -/
def wFs : Fs := [("/index.html", FsNode.file [104, 105])]

/-! ## Claims -/

/-- C1: For every response the server produces — every method, every path,
success and error alike — the finalized headers contain
`Access-Control-Allow-Origin: *` exactly once: the base handler never emits
it, and the overridden `end_headers` appends it once per response. -/
theorem cors_header_present_exactly_once (fs : Fs) (m : Method)
    (path : String) :
    corsCount (Handler.handleRequest fs m path).headers = 1 := by
  have h0 := corsCount_base fs m path
  rcases hE : baseRespond fs m path with ⟨s, hs, b⟩
  rw [hE] at h0
  simp only [Handler.handleRequest, hE, Handler.end_headers,
    SimpleHTTPRequestHandler.end_headers, corsCount_append_cors]
  simpa using h0

/-- C2: A GET request whose path names an existing file under the served
directory gets status 200 and a body equal to the file bytes. -/
theorem existing_file_get_ok (fs : Fs) (path : String) (bytes : List Nat)
    (h : lookupFs fs path = some (FsNode.file bytes)) :
    (Handler.handleRequest fs Method.get path).status = 200 ∧
    (Handler.handleRequest fs Method.get path).body = bytes := by
  simp [Handler.handleRequest, baseRespond, baseGetHead, h, baseServeFile]

theorem existing_file_get_ok_witness :
    lookupFs wFs "/index.html" = some (FsNode.file [104, 105]) ∧
    ((Handler.handleRequest wFs Method.get "/index.html").status = 200 ∧
     (Handler.handleRequest wFs Method.get "/index.html").body =
       [104, 105]) :=
  ⟨by decide, existing_file_get_ok wFs "/index.html" [104, 105] (by decide)⟩

/-- C3, counterexample to the claim as stated: a request whose method is
neither GET nor HEAD (for example POST) to a path naming no existing file or
directory is answered with the 501 "Unsupported method" default of the
underlying primitive, not with 404. -/
theorem nonexistent_404_counterexample :
    lookupFs ([] : Fs) "/missing" = none ∧
    ¬ (Handler.handleRequest ([] : Fs) Method.other "/missing").status
        = 404 := by
  decide

/-- C3, amended: for every GET or HEAD request whose path names no existing
file or directory, the response status is 404. -/
theorem nonexistent_404_get_head (fs : Fs) (m : Method) (path : String)
    (hm : m ≠ Method.other) (h : lookupFs fs path = none) :
    (Handler.handleRequest fs m path).status = 404 := by
  cases m
  · simp [Handler.handleRequest, baseRespond, baseGetHead, h]
  · simp [Handler.handleRequest, baseRespond, baseGetHead, h]
  · exact absurd rfl hm

theorem nonexistent_404_get_head_witness :
    (Method.get ≠ Method.other ∧ lookupFs ([] : Fs) "/missing" = none) ∧
    (Handler.handleRequest ([] : Fs) Method.get "/missing").status = 404 :=
  ⟨⟨by decide, rfl⟩,
   nonexistent_404_get_head [] Method.get "/missing" (by decide) rfl⟩

/-- C4: the bind address is the constant `('', 8000)` — all interfaces,
port 8000 — whatever the command line and the environment contain, and every
run of `main()` starts with exactly that bind attempt. -/
theorem port_fixed_8000 (argv : List String) (env : List (String × String))
    (bind : BindResult) (browser : Bool) (intr : Interruption) :
    bindAddress argv env = ("", 8000) ∧
    (mainRun bind browser intr).events.head? = some (Event.bind "" 8000) := by
  refine ⟨rfl, ?_⟩
  cases bind <;> cases intr <;> rfl

/-- C5: a `KeyboardInterrupt` inside `serve_forever` unwinds the loop (the
run terminates, so connections are no longer accepted), the shutdown notice
is printed, `server_close` releases the socket, and `main()` returns
normally, so the process exits with status code 0. -/
theorem interrupt_clean_shutdown (browser : Bool) :
    (mainRun BindResult.ok browser Interruption.atServeKI).exitStatus =
      some ExitStatus.success ∧
    Event.println shutdownMsg ∈
      (mainRun BindResult.ok browser Interruption.atServeKI).events ∧
    Event.serverClose ∈
      (mainRun BindResult.ok browser Interruption.atServeKI).events ∧
    ExitStatus.success.exitsZero = true := by
  refine ⟨rfl, ?_, ?_, rfl⟩ <;> simp [mainRun, Execution.events]

/-- C6: when the port is already in use, the `HTTPServer` constructor raises
and the exception is uncaught: the run ends at once with a non-zero exit
status (the interpreter reports the error), the serving loop is never
reached, and exactly one bind is attempted — no retry, no alternate port. -/
theorem bind_failure_fail_fast (browser : Bool) (intr : Interruption) :
    (mainRun BindResult.portInUse browser intr).exitStatus =
      some (ExitStatus.uncaught Exc.addrInUse) ∧
    (ExitStatus.uncaught Exc.addrInUse).exitsZero = false ∧
    Event.serveLoop ∉ (mainRun BindResult.portInUse browser intr).events ∧
    ((mainRun BindResult.portInUse browser intr).events.filter
        Event.isBind).length = 1 := by
  refine ⟨rfl, rfl, ?_, rfl⟩
  simp [mainRun, Execution.events]

/-- C7: whatever `webbrowser.open` returns — `false` meaning no browser
could be opened — the run still reaches the serving loop and blocks there;
a browser-launch failure never terminates startup. -/
theorem browser_failure_nonfatal (browser : Bool) :
    Event.serveLoop ∈
      (mainRun BindResult.ok browser Interruption.never).events ∧
    (mainRun BindResult.ok browser Interruption.never).exitStatus = none := by
  refine ⟨?_, rfl⟩
  simp [mainRun, Execution.events]

/-- C8: on a successful startup the side effects happen in exactly this
order: bind, the line announcing `http://localhost:8000`, the line telling
the user to interrupt, the browser-open attempt at that URL, and only then
the blocking serve loop. -/
theorem startup_side_effect_order (browser : Bool) :
    mainRun BindResult.ok browser Interruption.never =
      Execution.serving
        [Event.bind "" 8000,
         Event.println "Starting server at http://localhost:8000",
         Event.println "Press Ctrl+C to stop the server",
         Event.browserOpen "http://localhost:8000" browser,
         Event.serveLoop] := by
  rfl

/-- C9, counterexample to the claim as stated: an exception other than
`KeyboardInterrupt` escaping `serve_forever` is an exit path out of the
serving loop on which `server_close` never runs — the `try` has no
`finally`, and its only handler is `except KeyboardInterrupt`. -/
theorem server_close_skipped_counterexample :
    (mainRun BindResult.ok true Interruption.atServeOther).exitStatus =
      some (ExitStatus.uncaught Exc.otherExc) ∧
    Event.serverClose ∉
      (mainRun BindResult.ok true Interruption.atServeOther).events := by
  refine ⟨rfl, ?_⟩
  simp [mainRun, Execution.events]

/-- C9, amended: `server_close` runs before exit on the interrupt path out
of the serving loop, and only there — on any other exception path it does
not run, the exception propagating uncaught instead. -/
theorem server_close_on_interrupt_path_only (browser : Bool) :
    Event.serverClose ∈
      (mainRun BindResult.ok browser Interruption.atServeKI).events ∧
    (mainRun BindResult.ok browser Interruption.atServeKI).exitStatus =
      some ExitStatus.success ∧
    Event.serverClose ∉
      (mainRun BindResult.ok browser Interruption.atServeOther).events := by
  refine ⟨?_, rfl, ?_⟩ <;> simp [mainRun, Execution.events]

/-- C10: a `KeyboardInterrupt` arriving after the listener is bound but
before the `try` block — during either startup print or the browser-open
attempt — is not caught: the run ends with the exception uncaught (non-zero
exit status), without printing the shutdown notice and without calling
`server_close`. -/
theorem early_interrupt_uncaught (browser : Bool) (intr : Interruption)
    (h : intr = Interruption.atPrint1 ∨ intr = Interruption.atPrint2 ∨
         intr = Interruption.atBrowser) :
    Event.bind "" 8000 ∈ (mainRun BindResult.ok browser intr).events ∧
    (mainRun BindResult.ok browser intr).exitStatus =
      some (ExitStatus.uncaught Exc.keyboardInterrupt) ∧
    Event.println shutdownMsg ∉ (mainRun BindResult.ok browser intr).events ∧
    Event.serverClose ∉ (mainRun BindResult.ok browser intr).events ∧
    (ExitStatus.uncaught Exc.keyboardInterrupt).exitsZero = false := by
  rcases h with h | h | h <;> subst h <;> cases browser <;>
    exact ⟨by decide, rfl, by decide, by decide, rfl⟩

theorem early_interrupt_uncaught_witness :
    (Interruption.atBrowser = Interruption.atPrint1 ∨
     Interruption.atBrowser = Interruption.atPrint2 ∨
     Interruption.atBrowser = Interruption.atBrowser) ∧
    (Event.bind "" 8000 ∈
        (mainRun BindResult.ok true Interruption.atBrowser).events ∧
     (mainRun BindResult.ok true Interruption.atBrowser).exitStatus =
        some (ExitStatus.uncaught Exc.keyboardInterrupt) ∧
     Event.println shutdownMsg ∉
        (mainRun BindResult.ok true Interruption.atBrowser).events ∧
     Event.serverClose ∉
        (mainRun BindResult.ok true Interruption.atBrowser).events ∧
     (ExitStatus.uncaught Exc.keyboardInterrupt).exitsZero = false) :=
  ⟨Or.inr (Or.inr rfl),
   early_interrupt_uncaught true Interruption.atBrowser (Or.inr (Or.inr rfl))⟩

end Serve
